import Mathlib

/-!
Shallow embedding of the cloudflare-configurator operator reconciliation
logic, translated from src/src/charm.py and
src/lib/charms/cloudflare_configurator/v0/cloudflared_route.py.

The Juju collaborators (relation databags and the secret store) are
embedded explicitly:
  - a relation databag maps string keys to string values; writing the
    empty string to a key removes the key (Juju relation-set semantics,
    also how ops implements item deletion), so the empty string is never
    stored as a value;
  - the secret store maps string secret ids to payload dictionaries.
    Payload values are modelled as Option String because the Python code
    builds the dictionary literal with a value of type str or None
    (set_tunnel_token is called with tunnel_token=None from cleanup);
  - reading an unknown secret id raises SecretNotFound; subscripting a
    payload dictionary at a missing key raises KeyError; both are
    modelled with the Except error monad, as are the exception classes
    InvalidIntegration (cloudflared_route.py) and InvalidConfig
    (charm.py).
-/

set_option autoImplicit false

/-- A relation databag: association list from keys to string values.
The first binding for a key wins, and operations never store the empty
string, mirroring Juju relation data. -/
abbrev Bag := List (String × String)

/-- A secret payload: association list from field names to values.
A value of none models the Python value None. -/
abbrev Payload := List (String × Option String)

def bagGet (bag : Bag) (k : String) : Option String :=
  (bag.find? (fun p => p.1 == k)).map (fun p => p.2)

def bagErase (bag : Bag) (k : String) : Bag :=
  bag.filter (fun p => !(p.1 == k))

/-- Writing a value into a databag; writing the empty string removes the
key entirely (Juju relation-set semantics). -/
def bagSet (bag : Bag) (k v : String) : Bag :=
  if v == "" then bagErase bag k else bagErase bag k ++ [(k, v)]

/-- Deleting a key: ops implements del data[k] as data[k] = "". -/
def bagDel (bag : Bag) (k : String) : Bag :=
  bagSet bag k ""

def payloadGet (c : Payload) (k : String) : Option (Option String) :=
  (c.find? (fun p => p.1 == k)).map (fun p => p.2)

/-- Python truthiness of an optional string: None and the empty string
are falsy. -/
def truthy : Option String → Bool
  | none => false
  | some s => !(s == "")

/-- Python or on two optional strings: the first operand if truthy,
otherwise the second operand. -/
def orPy (a b : Option String) : Option String :=
  if truthy a then a else b

/-- Exceptions that can escape the embedded operations. -/
inductive Err where
  /-- Python KeyError raised by subscripting a dict at a missing key. -/
  | keyError (k : String)
  /-- InvalidIntegration from cloudflared_route.py. -/
  | invalidIntegration (msg : String)
  /-- ops SecretNotFoundError from model.get_secret with an unknown id. -/
  | secretNotFound
  /-- AttributeError-style failure when no relation object exists. -/
  | relationMissing
  /-- InvalidConfig from charm.py. -/
  | invalidConfig (msg : String)
deriving DecidableEq, Repr

/-- Mutating calls made against the SecretStore, recorded so that
idempotence claims about redundant store calls can be stated. -/
inductive StoreOp where
  | create (id : String)
  | grant (id : String)
  | update (id : String)
  | revokeAll (id : String)
deriving DecidableEq, Repr

/-- Unit status values produced by the reconciler. -/
inductive Status where
  | active
  | blocked (msg : String)
  | waiting (msg : String)
deriving DecidableEq, Repr

/-- The mutable world visible to the charm: the secret store, the
cloudflared-route relation local app databag (none when the relation is
absent), and the ingress relation record (none when the ingress relation
is absent, some none when present without a published record). -/
structure World where
  secrets : List (String × Payload)
  nextId : Nat
  grants : List String
  route : Option Bag
  ingress : Option (Option String)
deriving DecidableEq, Repr

/-- Inputs of one reconciliation pass: leadership, the charm config
items domain, tunnel-token (a juju secret id pointer) and nameserver,
and the result of the kube-dns address lookup. -/
structure Snapshot where
  appName : String
  leader : Bool
  domain : Option String
  tunnelToken : Option String
  nameserver : Option String
  k8sDns : Option String
deriving DecidableEq, Repr

def secretsGet (s : List (String × Payload)) (id : String) : Option Payload :=
  (s.find? (fun p => p.1 == id)).map (fun p => p.2)

def secretsSet (s : List (String × Payload)) (id : String) (c : Payload) :
    List (String × Payload) :=
  s.map (fun p => if p.1 == id then (id, c) else p)

def secretsRemove (s : List (String × Payload)) (id : String) :
    List (String × Payload) :=
  s.filter (fun p => !(p.1 == id))

/-- The id assigned by the store to the next created secret; fresh ids
are a contract of the SecretStore collaborator. -/
def freshSecretId (w : World) : String :=
  "secret-" ++ toString w.nextId

/-- Relation data key holding the secret reference,
cloudflared_route.py constant _TUNNEL_TOKEN_SECRET_ID_FIELD. -/
def tunnelTokenSecretIdField : String := "tunnel_token_secret_id"

/-- Secret payload field name, cloudflared_route.py constant
_TUNNEL_TOKEN_SECRET_VALUE_FIELD. -/
def tunnelTokenSecretValueField : String := "tunnel-token"

/-- CloudflaredRouteProvider.set_tunnel_token. If the databag holds no
secret reference, a new secret with the single payload field is created,
granted to the relation, and its id written into the databag; otherwise
the current payload is read (KeyError if the field is missing) and the
secret content updated in place only when it differs. The returned list
records the mutating SecretStore calls performed. -/
def set_tunnel_token (tunnel_token : Option String) (w : World) :
    Except Err (World × List StoreOp) :=
  match w.route with
  | none => .error .relationMissing
  | some bag =>
    match bagGet bag tunnelTokenSecretIdField with
    | none =>
      -- add_secret, grant, write reference
      .ok ({ w with
              secrets := w.secrets ++
                [(freshSecretId w, [(tunnelTokenSecretValueField, tunnel_token)])],
              nextId := w.nextId + 1,
              grants := w.grants ++ [freshSecretId w],
              route := some (bagSet bag tunnelTokenSecretIdField (freshSecretId w)) },
            [.create (freshSecretId w), .grant (freshSecretId w)])
    | some secret_id =>
      match secretsGet w.secrets secret_id with
      | none => .error .secretNotFound
      | some content =>
        match payloadGet content tunnelTokenSecretValueField with
        | none => .error (.keyError tunnelTokenSecretValueField)
        | some v =>
          if v ≠ tunnel_token then
            .ok ({ w with
                    secrets := secretsSet w.secrets secret_id
                      [(tunnelTokenSecretValueField, tunnel_token)] },
                  [.update secret_id])
          else
            .ok (w, [])

/-- CloudflaredRouteProvider.unset_tunnel_token. If the databag holds a
secret reference, all revisions of that secret are removed from the
store; then the databag key tunnel-token (the payload field name, as
written in the source) is set to the empty string, which deletes it. -/
def unset_tunnel_token (w : World) : Except Err World :=
  match w.route with
  | none => .error .relationMissing
  | some bag =>
    match bagGet bag tunnelTokenSecretIdField with
    | some secret_id =>
      match secretsGet w.secrets secret_id with
      | none => .error .secretNotFound
      | some _ =>
        .ok { w with
                secrets := secretsRemove w.secrets secret_id,
                route := some (bagSet bag tunnelTokenSecretValueField "") }
    | none =>
      .ok { w with route := some (bagSet bag tunnelTokenSecretValueField "") }

/-- CloudflaredRouteProvider.set_nameserver. A truthy value is written
under the key nameserver; otherwise the key is deleted. -/
def set_nameserver (nameserver : Option String) (w : World) : Except Err World :=
  match w.route with
  | none => .error .relationMissing
  | some bag =>
    if truthy nameserver then
      .ok { w with route := some (bagSet bag "nameserver" (nameserver.getD "")) }
    else
      .ok { w with route := some (bagDel bag "nameserver") }

/-- CloudflaredRouteRequirer.get_tunnel_token, reading the databag of
the provider application: absent when no secret reference is stored;
SecretNotFound if the reference does not resolve; InvalidIntegration
naming the missing field if the resolved payload lacks tunnel-token. -/
def get_tunnel_token (w : World) (bag : Bag) : Except Err (Option String) :=
  match bagGet bag tunnelTokenSecretIdField with
  | none => .ok none
  | some secret_id =>
    match secretsGet w.secrets secret_id with
    | none => .error .secretNotFound
    | some content =>
      match payloadGet content tunnelTokenSecretValueField with
      | none =>
        .error (.invalidIntegration
          "secret doesn\x27t have \x27tunnel-token\x27 field")
      | some v => .ok v

/-- CloudflareConfiguratorCharm._get_tunnel_tokens: dereference the
tunnel-token config pointer through the secret store; a missing field or
a None value in the payload raises InvalidConfig. -/
def get_tunnel_tokens (snap : Snapshot) (w : World) : Except Err (Option String) :=
  match snap.tunnelToken with
  | none => .ok none
  | some secret_id =>
    if secret_id == "" then .ok none
    else
      match secretsGet w.secrets secret_id with
      | none => .error .secretNotFound
      | some content =>
        match payloadGet content tunnelTokenSecretValueField with
        | some (some v) => .ok (some v)
        | _ =>
          .error (.invalidConfig
            ("missing \x27tunnel-token\x27 in juju secret: " ++ secret_id))

/-- Modelled from the spec: IngressPerAppProvider.publish_url from the
vendored traefik_k8s library is not under src; the spec describes it as
writing a structured record holding the URL into the ingress channel. -/
def publish_url (w : World) (url : String) : World :=
  { w with ingress := some (some url) }

/-- Modelled from the spec: IngressPerAppProvider.wipe_ingress_data from
the vendored traefik_k8s library is not under src; the spec describes it
as removing the ingress record entirely. -/
def wipe_ingress_data (w : World) : World :=
  { w with ingress := some none }

/-- CloudflareConfiguratorCharm._unpublish_ingress_url: wipe the ingress
record when the ingress relation is present. -/
def unpublish_ingress_url (w : World) : World :=
  match w.ingress with
  | some _ => wipe_ingress_data w
  | none => w

/-- CloudflareConfiguratorCharm._reconcile converge step for ingress:
publish the derived URL when the ingress relation is present. -/
def publish_ingress_if_present (w : World) (url : String) : World :=
  match w.ingress with
  | some _ => publish_url w url
  | none => w

/-- CloudflareConfiguratorCharm._cleanup: when the cloudflared-route
relation is present, set_nameserver(None) then set_tunnel_token(None);
always unpublish the ingress URL afterwards. -/
def cleanup (w : World) : Except Err World :=
  match w.route with
  | some _ =>
    match set_nameserver none w with
    | .error e => .error e
    | .ok w1 =>
      match set_tunnel_token none w1 with
      | .error e => .error e
      | .ok (w2, _) => .ok (unpublish_ingress_url w2)
  | none => .ok (unpublish_ingress_url w)

/-- The blocked status message produced for a non-leader unit. -/
def notSoleAuthorityMsg (appName : String) : String :=
  "this charm only supports a single unit, please remove the additional units " ++
    "using \x60juju scale-application " ++ appName ++ " 1\x60"

/-- Names of the missing configuration items, in declaration order. -/
def missingItems (domain tunnel_token : Option String) : List String :=
  (if truthy domain then [] else ["domain"]) ++
    (if truthy tunnel_token then [] else ["tunnel-token"])

/-- CloudflareConfiguratorCharm._reconcile: leadership check, config
validation, completeness check, relation-presence check, then converge.
The relation property read on CloudflaredRouteProvider is modelled from
the spec as presence of the cloudflared-route channel (the property
itself is not in the vendored library copy under src). -/
def reconcile (snap : Snapshot) (w : World) : Except Err (Status × World) :=
  if !snap.leader then
    .ok (.blocked (notSoleAuthorityMsg snap.appName), w)
  else
    match get_tunnel_tokens snap w with
    | .error (.invalidConfig msg) =>
      match cleanup w with
      | .error e => .error e
      | .ok w1 => .ok (.blocked msg, w1)
    | .error e => .error e
    | .ok tunnel_token =>
      if !(truthy snap.domain && truthy tunnel_token) then
        match cleanup w with
        | .error e => .error e
        | .ok w1 =>
          .ok (.waiting ("waiting for " ++
                String.intercalate ", " (missingItems snap.domain tunnel_token) ++
                " configuration"), w1)
      else if w.route.isNone then
        match cleanup w with
        | .error e => .error e
        | .ok w1 => .ok (.waiting "waiting for cloudflared-route integration", w1)
      else
        match set_tunnel_token tunnel_token w with
        | .error e => .error e
        | .ok (w1, _) =>
          match set_nameserver (orPy snap.nameserver snap.k8sDns) w1 with
          | .error e => .error e
          | .ok w2 =>
            .ok (.active,
              publish_ingress_if_present w2 ("https://" ++ snap.domain.getD ""))

/-- The secret reference currently stored in the credential channel. -/
def routeRef (w : World) : Option String :=
  match w.route with
  | some bag => bagGet bag tunnelTokenSecretIdField
  | none => none

/-- Well-formedness of stored secret payloads: every field holds an
actual string, never the Python value None; this is the contract of the
Juju secret store, whose secret values are strings. -/
def wfSecrets (w : World) : Bool :=
  w.secrets.all (fun p => p.2.all (fun q => q.2.isSome))

/-! Helper lemmas about databag and store primitives. -/

theorem find?_append_of_none {α : Type} (p : α → Bool) (l1 l2 : List α)
    (h : l1.find? p = none) : (l1 ++ l2).find? p = l2.find? p := by
  induction l1 with
  | nil => rfl
  | cons a t ih =>
    cases hp : p a with
    | true => simp [List.find?, hp] at h
    | false =>
      simp only [List.find?, hp, List.cons_append] at h ⊢
      exact ih h

theorem bagGet_bagErase_self (bag : Bag) (k : String) :
    bagGet (bagErase bag k) k = none := by
  induction bag with
  | nil => rfl
  | cons a t ih =>
    by_cases h : a.1 = k
    · simp only [bagErase, List.filter, h, beq_self_eq_true, Bool.not_true]
      exact ih
    · have hq : (!(a.1 == k)) = true := by simp [h]
      unfold bagGet bagErase at ih ⊢
      simp only [List.filter, hq]
      rw [List.find?_cons_of_neg _ (by simp [h])]
      exact ih

theorem not_mem_bagErase_self (bag : Bag) (k v : String) :
    (k, v) ∉ bagErase bag k := by
  intro hmem
  have hp := List.of_mem_filter hmem
  simp at hp

theorem bagGet_bagSet_self (bag : Bag) (k v : String) (h : (v == "") = false) :
    bagGet (bagSet bag k v) k = some v := by
  unfold bagSet
  rw [h]
  simp only [Bool.false_eq_true, if_false, bagGet]
  rw [find?_append_of_none]
  · simp [List.find?]
  · have := bagGet_bagErase_self bag k
    unfold bagGet at this
    exact Option.map_eq_none.mp this

theorem secretsGet_append_right (l : List (String × Payload)) (id : String)
    (c : Payload) (h : secretsGet l id = none) :
    secretsGet (l ++ [(id, c)]) id = some c := by
  unfold secretsGet at h ⊢
  rw [find?_append_of_none _ _ _ (Option.map_eq_none.mp h)]
  simp [List.find?]

theorem find?_map_replace (l : List (String × Payload)) (id : String)
    (c : Payload) (h : (l.find? (fun p => p.1 == id)).isSome) :
    ((l.map (fun p => if p.1 == id then (id, c) else p)).find?
      (fun p => p.1 == id)) = some (id, c) := by
  induction l with
  | nil => simp [List.find?] at h
  | cons a t ih =>
    cases hk : (a.1 == id) with
    | true => simp [List.find?, hk]
    | false =>
      rw [List.find?_cons_of_neg _ (by simp [hk])] at h
      have hstep : (List.map (fun p => if p.1 == id then (id, c) else p) (a :: t)) =
          a :: List.map (fun p => if p.1 == id then (id, c) else p) t := by
        simp only [List.map, hk, Bool.false_eq_true, if_false]
      rw [hstep, List.find?_cons_of_neg _ (by simp [hk])]
      exact ih h

theorem secretsGet_secretsSet (l : List (String × Payload)) (id : String)
    (c : Payload) (h : (secretsGet l id).isSome) :
    secretsGet (secretsSet l id c) id = some c := by
  have hf : (l.find? (fun p => p.1 == id)).isSome := by
    unfold secretsGet at h
    cases hx : l.find? (fun p => p.1 == id) with
    | none => rw [hx] at h; simp at h
    | some pr => simp
  unfold secretsGet secretsSet
  rw [find?_map_replace l id c hf]
  rfl

/-! Concrete inputs used by the individual claims. -/

def c1snap : Snapshot :=
  { appName := "cloudflare-configurator", leader := false,
    domain := some "example.com", tunnelToken := some "secret-0",
    nameserver := some "1.1.1.1", k8sDns := none }

def c1world : World :=
  { secrets := [("secret-0", [("tunnel-token", some "foobar")])],
    nextId := 1, grants := [],
    route := some [("nameserver", "8.8.8.8")],
    ingress := some (some "https://old.example.com") }

/-- Claim C1: for every snapshot with hasAuthority = false, reconcile
produces the Blocked outcome with the not-sole-authority reason and
leaves the credential channel, the ingress channel and the secret store
unchanged from their pre-call state, regardless of all other snapshot
fields: the returned world is exactly the input world. -/
theorem claim_c1_authority_frame (snap : Snapshot) (w : World)
    (h : snap.leader = false) :
    reconcile snap w = .ok (.blocked (notSoleAuthorityMsg snap.appName), w) := by
  simp [reconcile, h]

/-- Witness for claim C1 at a concrete non-leader snapshot over a
non-empty world. -/
theorem claim_c1_authority_frame_witness :
    c1snap.leader = false ∧
      reconcile c1snap c1world =
        .ok (.blocked (notSoleAuthorityMsg c1snap.appName), c1world) :=
  ⟨rfl, claim_c1_authority_frame c1snap c1world rfl⟩

def c2snap : Snapshot :=
  { appName := "cloudflare-configurator", leader := true,
    domain := none, tunnelToken := some "secret-0",
    nameserver := none, k8sDns := none }

def c2world : World :=
  { secrets := [("secret-0", [("tunnel-token", some "foobar")])],
    nextId := 1, grants := [], route := some [], ingress := some none }

def c2post : World :=
  { secrets := [("secret-0", [("tunnel-token", some "foobar")]),
      ("secret-1", [("tunnel-token", none)])],
    nextId := 2, grants := ["secret-1"],
    route := some [("tunnel_token_secret_id", "secret-1")],
    ingress := some none }

/-- Claim C2 fails on the code: a snapshot reaching Waiting via the
step-3 completeness check (domain missing) over a present, empty
credential channel leaves the channel holding a secret reference after
reconcile, because cleanup calls set_tunnel_token(None), which creates
and publishes a fresh secret instead of revoking. -/
theorem claim_c2_cleanup_creates_reference :
    reconcile c2snap c2world =
        .ok (.waiting "waiting for domain configuration", c2post) ∧
      routeRef c2post = some "secret-1" ∧
      secretsGet c2post.secrets "secret-1" = some [("tunnel-token", none)] :=
  ⟨rfl, rfl, rfl⟩

def c3world : World :=
  { secrets := [("secret-0", [("tunnel-token", some "tok")])],
    nextId := 1, grants := ["secret-0"],
    route := some [("tunnel_token_secret_id", "secret-0")], ingress := none }

def c3post : World :=
  { secrets := [], nextId := 1, grants := ["secret-0"],
    route := some [("tunnel_token_secret_id", "secret-0")], ingress := none }

/-- Claim C3 fails on the code: revoking a channel with an active
reference removes all revisions of the secret from the store, but the
reference key tunnel_token_secret_id is left in the channel because
unset_tunnel_token clears the key tunnel-token instead, and a subsequent
get_tunnel_token raises SecretNotFound rather than returning absent. -/
theorem claim_c3_revoke_leaves_reference :
    unset_tunnel_token c3world = .ok c3post ∧
      secretsGet c3post.secrets "secret-0" = none ∧
      routeRef c3post = some "secret-0" ∧
      get_tunnel_token c3post ((c3post.route).getD []) = .error .secretNotFound :=
  ⟨rfl, rfl, rfl, rfl⟩

def c5snap : Snapshot :=
  { appName := "cloudflare-configurator", leader := true,
    domain := none, tunnelToken := some "secret-0",
    nameserver := none, k8sDns := none }

def c5world : World :=
  { secrets := [("secret-0", [("tunnel-token", some "foobar")])],
    nextId := 1, grants := [], route := some [], ingress := none }

/-- Claim C5 fails on the code: with authority held and domain absent
the reconciler produces a Waiting status, not a Blocked one, although
its reason does name the missing item domain; the unit test
test_no_domain_config of the repository asserts a Blocked status for
this very input. -/
theorem claim_c5_missing_domain_is_waiting :
    ∃ w1, reconcile c5snap c5world =
      .ok (.waiting "waiting for domain configuration", w1) :=
  ⟨_, rfl⟩

def c6snap : Snapshot :=
  { appName := "cloudflare-configurator", leader := true,
    domain := some "example.com", tunnelToken := some "secret-0",
    nameserver := none, k8sDns := none }

def c6world : World :=
  { secrets := [("secret-0", [("tunnel-token", some "foobar")])],
    nextId := 1, grants := [], route := some [], ingress := none }

def c6post : World :=
  { secrets := [("secret-0", [("tunnel-token", some "foobar")]),
      ("secret-1", [("tunnel-token", some "foobar")])],
    nextId := 2, grants := ["secret-1"],
    route := some [("tunnel_token_secret_id", "secret-1")],
    ingress := none }

/-- Claim C6: the scenario-A snapshot (domain example.com, credential
foobar held in the configured juju secret, authority held, credential
channel present and empty) reconciles to Active, and the channel ends
holding a reference to a fresh secret (absent from the pre-call store)
whose payload field tunnel-token equals foobar. -/
theorem claim_c6_scenario_a_active :
    reconcile c6snap c6world = .ok (.active, c6post) ∧
      routeRef c6post = some "secret-1" ∧
      secretsGet c6world.secrets "secret-1" = none ∧
      secretsGet c6post.secrets "secret-1" =
        some [("tunnel-token", some "foobar")] :=
  ⟨rfl, rfl, rfl, rfl⟩

def c8world : World :=
  { secrets := [], nextId := 0, grants := [], route := some [], ingress := none }

def c8post : World :=
  { secrets := [("secret-0", [("tunnel-token", none)])],
    nextId := 1, grants := ["secret-0"],
    route := some [("tunnel_token_secret_id", "secret-0")], ingress := none }

/-- Claim C8 fails on the code: invoking cleanup on a state where
nothing was ever published (credential channel present and empty) is not
a no-op: set_tunnel_token(None) creates a new secret whose tunnel-token
field is the Python value None, grants it, and writes its reference into
the channel. -/
theorem claim_c8_cleanup_mutates_empty_state :
    cleanup c8world = .ok c8post ∧
      c8post ≠ c8world ∧
      routeRef c8post = some "secret-0" ∧
      secretsGet c8post.secrets "secret-0" = some [("tunnel-token", none)] :=
  ⟨rfl, by decide, rfl, rfl⟩

/-- Claim C9: writing the empty string and writing an absent value into
the nameserver attribute are the same operation, and both leave the
channel with the nameserver key truly absent; no binding for that key
remains in the databag, so an empty string is never stored under it. -/
theorem claim_c9_nameserver_true_absence (w : World) (bag : Bag)
    (h : w.route = some bag) :
    set_nameserver (some "") w = set_nameserver none w ∧
      ∃ bag1, set_nameserver none w = .ok { w with route := some bag1 } ∧
        bagGet bag1 "nameserver" = none ∧
        ∀ v : String, ("nameserver", v) ∉ bag1 := by
  refine ⟨by simp [set_nameserver, h, truthy],
    bagDel bag "nameserver", by simp [set_nameserver, h, truthy], ?_, ?_⟩
  · have hbe : bagDel bag "nameserver" = bagErase bag "nameserver" := by
      simp [bagDel, bagSet]
    rw [hbe]
    exact bagGet_bagErase_self bag "nameserver"
  · intro v hv
    have hbe : bagDel bag "nameserver" = bagErase bag "nameserver" := by
      simp [bagDel, bagSet]
    rw [hbe] at hv
    exact not_mem_bagErase_self bag "nameserver" v hv

def c9world : World :=
  { secrets := [], nextId := 0, grants := [],
    route := some [("nameserver", "10.0.0.1"), ("other", "y")], ingress := none }

/-- Witness for claim C9 at a concrete channel that currently stores a
nameserver value. -/
theorem claim_c9_nameserver_true_absence_witness :
    c9world.route = some [("nameserver", "10.0.0.1"), ("other", "y")] ∧
      set_nameserver (some "") c9world = set_nameserver none c9world :=
  ⟨rfl, (claim_c9_nameserver_true_absence c9world
    [("nameserver", "10.0.0.1"), ("other", "y")] rfl).1⟩

/-- Claim C10: when the credential channel already holds a reference to
a stored secret whose payload lacks the tunnel-token field, publishing
any value raises an unhandled KeyError while reading the stored payload
for comparison, and consequently any reconcile pass that reaches the
converge step over such a world fails with that KeyError. -/
theorem claim_c10_publish_keyerror_on_corrupt (w : World) (bag : Bag)
    (secret_id : String) (content : Payload)
    (hroute : w.route = some bag)
    (href : bagGet bag tunnelTokenSecretIdField = some secret_id)
    (hsec : secretsGet w.secrets secret_id = some content)
    (hfield : payloadGet content tunnelTokenSecretValueField = none) :
    (∀ tok : Option String,
        set_tunnel_token tok w = .error (.keyError tunnelTokenSecretValueField)) ∧
      (∀ snap : Snapshot, snap.leader = true → truthy snap.domain = true →
        ∀ tt : Option String, get_tunnel_tokens snap w = .ok tt →
          truthy tt = true →
            reconcile snap w = .error (.keyError tunnelTokenSecretValueField)) := by
  have h1 : ∀ tok : Option String,
      set_tunnel_token tok w = .error (.keyError tunnelTokenSecretValueField) := by
    intro tok
    simp [set_tunnel_token, hroute, href, hsec, hfield]
  refine ⟨h1, ?_⟩
  intro snap hl hd tt hgt htt
  simp [reconcile, hl, hgt, hd, htt, hroute, h1 tt]

def c10world : World :=
  { secrets := [("cfg", [("tunnel-token", some "confval")]),
      ("pub", [("other", some "x")])],
    nextId := 2, grants := ["pub"],
    route := some [("tunnel_token_secret_id", "pub")], ingress := none }

def c10snap : Snapshot :=
  { appName := "cloudflare-configurator", leader := true,
    domain := some "example.com", tunnelToken := some "cfg",
    nameserver := none, k8sDns := none }

/-- Witness for claim C10: a concrete world whose published secret lost
its tunnel-token field makes both the publish call and a full converge
pass fail with KeyError. -/
theorem claim_c10_publish_keyerror_on_corrupt_witness :
    set_tunnel_token (some "confval") c10world =
        .error (.keyError tunnelTokenSecretValueField) ∧
      reconcile c10snap c10world =
        .error (.keyError tunnelTokenSecretValueField) :=
  ⟨(claim_c10_publish_keyerror_on_corrupt c10world
      [("tunnel_token_secret_id", "pub")] "pub" [("other", some "x")]
      rfl rfl rfl rfl).1 (some "confval"),
   (claim_c10_publish_keyerror_on_corrupt c10world
      [("tunnel_token_secret_id", "pub")] "pub" [("other", some "x")]
      rfl rfl rfl rfl).2 c10snap rfl rfl (some "confval") rfl rfl⟩

theorem wf_value_isSome (w : World) (hwf : wfSecrets w = true) (id : String)
    (content : Payload) (k : String) (v : Option String)
    (hs : secretsGet w.secrets id = some content)
    (hp : payloadGet content k = some v) : v.isSome = true := by
  unfold secretsGet at hs
  obtain ⟨pr, hfind, hpr⟩ := Option.map_eq_some'.mp hs
  have hmem := List.mem_of_find?_eq_some hfind
  unfold wfSecrets at hwf
  have hall := List.all_eq_true.mp hwf pr hmem
  rw [hpr] at hall
  unfold payloadGet at hp
  obtain ⟨q, hqfind, hqv⟩ := Option.map_eq_some'.mp hp
  have hqmem := List.mem_of_find?_eq_some hqfind
  have := List.all_eq_true.mp hall q hqmem
  rw [hqv] at this
  exact this

/-- Claim C7: over well-formed secret stores (payload values are
strings, the contract of the Juju secret store), get_tunnel_token
returns absent exactly when the channel holds no secret reference, and
raises InvalidIntegration naming the missing tunnel-token field exactly
when the held reference resolves to a payload lacking that field; in
particular a corrupt referenced secret is never reported as absent. -/
theorem claim_c7_corrupt_never_absent (w : World) (bag : Bag)
    (hwf : wfSecrets w = true) :
    ((get_tunnel_token w bag = .ok none) ↔
        bagGet bag tunnelTokenSecretIdField = none) ∧
      (∀ secret_id, bagGet bag tunnelTokenSecretIdField = some secret_id →
        ((get_tunnel_token w bag =
            .error (.invalidIntegration
              "secret doesn\x27t have \x27tunnel-token\x27 field")) ↔
          ∃ content, secretsGet w.secrets secret_id = some content ∧
            payloadGet content tunnelTokenSecretValueField = none)) := by
  cases hb : bagGet bag tunnelTokenSecretIdField with
  | none =>
    constructor
    · simp [get_tunnel_token, hb]
    · intro sid hcontra
      exact Option.noConfusion hcontra
  | some sid =>
    constructor
    · constructor
      · intro hok
        cases hs : secretsGet w.secrets sid with
        | none => simp [get_tunnel_token, hb, hs] at hok
        | some content =>
          cases hp : payloadGet content tunnelTokenSecretValueField with
          | none => simp [get_tunnel_token, hb, hs, hp] at hok
          | some v =>
            have hv : v = none := by
              simpa [get_tunnel_token, hb, hs, hp] using hok
            have hvs := wf_value_isSome w hwf sid content
              tunnelTokenSecretValueField v hs hp
            rw [hv] at hvs
            exact Bool.noConfusion hvs
      · intro hcontra
        exact Option.noConfusion hcontra
    · intro sid2 h2
      injection h2 with he
      subst he
      cases hs : secretsGet w.secrets sid with
      | none => simp [get_tunnel_token, hb, hs]
      | some content =>
        cases hp : payloadGet content tunnelTokenSecretValueField with
        | none => simp [get_tunnel_token, hb, hs, hp]
        | some v => simp [get_tunnel_token, hb, hs, hp]

def c7world : World :=
  { secrets := [("secret-9", [("other-field", some "zzz")])],
    nextId := 10, grants := ["secret-9"],
    route := some [("tunnel_token_secret_id", "secret-9")], ingress := none }

/-- Witness for claim C7 at a concrete well-formed world whose channel
references a secret lacking the tunnel-token field. -/
theorem claim_c7_corrupt_never_absent_witness :
    wfSecrets c7world = true ∧
      get_tunnel_token c7world [("tunnel_token_secret_id", "secret-9")] =
        .error (.invalidIntegration
          "secret doesn\x27t have \x27tunnel-token\x27 field") :=
  ⟨rfl,
    ((claim_c7_corrupt_never_absent c7world
        [("tunnel_token_secret_id", "secret-9")] rfl).2 "secret-9" rfl).mpr
      ⟨[("other-field", some "zzz")], rfl, rfl⟩⟩

theorem freshSecretId_beq_empty (w : World) : (freshSecretId w == "") = false := by
  apply beq_eq_false_iff_ne.mpr
  intro hcontra
  have hlen := congrArg String.length hcontra
  rw [freshSecretId, String.length_append] at hlen
  rw [show ("secret-" : String).length = 7 from rfl] at hlen
  rw [show ("" : String).length = 0 from rfl] at hlen
  omega

/-- Claim C4: if a publish call succeeds, an immediately repeated
publish of the same value returns the world unchanged and records zero
mutating SecretStore calls; in particular the secret handle stored in
the channel is unchanged and no create, grant or update happens on the
second invocation. The freshness hypothesis is the SecretStore contract
that a newly assigned handle does not collide with a stored one. -/
theorem claim_c4_publish_idempotent (tok : Option String) (w w1 : World)
    (ops1 : List StoreOp)
    (hfresh : secretsGet w.secrets (freshSecretId w) = none)
    (h : set_tunnel_token tok w = .ok (w1, ops1)) :
    set_tunnel_token tok w1 = .ok (w1, []) := by
  cases hr : w.route with
  | none => simp [set_tunnel_token, hr] at h
  | some bag =>
    cases hb : bagGet bag tunnelTokenSecretIdField with
    | none =>
      simp only [set_tunnel_token, hr, hb, Except.ok.injEq, Prod.mk.injEq] at h
      obtain ⟨hw1, -⟩ := h
      subst hw1
      have hget := bagGet_bagSet_self bag tunnelTokenSecretIdField
        (freshSecretId w) (freshSecretId_beq_empty w)
      have hsg := secretsGet_append_right w.secrets (freshSecretId w)
        [(tunnelTokenSecretValueField, tok)] hfresh
      simp [set_tunnel_token, hget, hsg, payloadGet, List.find?]
    | some sid =>
      cases hs : secretsGet w.secrets sid with
      | none => simp [set_tunnel_token, hr, hb, hs] at h
      | some content =>
        cases hp : payloadGet content tunnelTokenSecretValueField with
        | none => simp [set_tunnel_token, hr, hb, hs, hp] at h
        | some v =>
          by_cases hv : v = tok
          · subst hv
            simp only [set_tunnel_token, hr, hb, hs, hp, ne_eq, not_true_eq_false,
              if_false, Except.ok.injEq, Prod.mk.injEq] at h
            obtain ⟨hw1, -⟩ := h
            subst hw1
            simp [set_tunnel_token, hr, hb, hs, hp]
          · simp only [set_tunnel_token, hr, hb, hs, hp, ne_eq, hv,
              not_false_eq_true, if_true, Except.ok.injEq, Prod.mk.injEq] at h
            obtain ⟨hw1, -⟩ := h
            subst hw1
            have hsome : (secretsGet w.secrets sid).isSome = true := by
              rw [hs]; rfl
            have hss := secretsGet_secretsSet w.secrets sid
              [(tunnelTokenSecretValueField, tok)] hsome
            simp [set_tunnel_token, hr, hb, hss, payloadGet, List.find?]

def c4world : World :=
  { secrets := [], nextId := 0, grants := [], route := some [], ingress := none }

def c4mid : World :=
  { secrets := [("secret-0", [("tunnel-token", some "tok")])],
    nextId := 1, grants := ["secret-0"],
    route := some [("tunnel_token_secret_id", "secret-0")], ingress := none }

/-- Witness for claim C4: publishing twice over an initially empty
channel creates the secret once and the second call is a recorded
no-op. -/
theorem claim_c4_publish_idempotent_witness :
    secretsGet c4world.secrets (freshSecretId c4world) = none ∧
      set_tunnel_token (some "tok") c4world =
        .ok (c4mid, [.create "secret-0", .grant "secret-0"]) ∧
      set_tunnel_token (some "tok") c4mid = .ok (c4mid, []) :=
  ⟨rfl, rfl, claim_c4_publish_idempotent (some "tok") c4world c4mid
    [.create "secret-0", .grant "secret-0"] rfl rfl⟩
